import Mathlib

/-!
Verification of the m-aider recommendation engine
(`src/maider/benchmark_models.py`, `src/maider/benchmark_db.py`,
`src/maider/recommendations.py`) against its natural-language
specification.

The Python modules are shallowly embedded: floats become `ℚ`, Python
`int` becomes `ℤ` (or `ℕ` where the value is a length), dictionaries
with fixed keys become structures or association lists, and Python
`list.sort(key=...)` becomes a stable `List.mergeSort` on the same key.
Fields of `BenchmarkResult` that no function under verification ever
reads (`vllm_config`, `tests`, and the values of the
`results_by_category` and `summary` dictionaries beyond the two summary
metrics read by the engine) are omitted or reduced to the part that is
read: the key set of `results_by_category` and the two optional summary
entries, where `Option` models presence of the key and `.getD 0` models
Python `dict.get(key, 0)`.
-/

namespace Maider

/-- Boolean test that `p` is a prefix of `l`, by direct recursion
(model of the prefix step of Python substring search). -/
def listPrefix : List Char → List Char → Bool
  | [], _ => true
  | _ :: _, [] => false
  | a :: as, b :: bs => a == b && listPrefix as bs

/-- Boolean substring test on character lists: `pat` occurs inside `s`.
Models the Python expression `pat in s` on strings. -/
def listContains (s pat : List Char) : Bool :=
  match s with
  | [] => listPrefix pat []
  | _ :: rest => listPrefix pat s || listContains rest pat

/-- Boolean substring test on strings, models Python `pat in s`. -/
def strContains (s pat : String) : Bool :=
  listContains s.data pat.data

/-- ASCII lower-casing of a string; models Python `str.lower()` on the
ASCII identifiers the engine works with. -/
def strLower (s : String) : String :=
  ⟨s.data.map Char.toLower⟩

/-! Embedding of `src/maider/benchmark_models.py`. -/

/-- Stable insertion of `a` into `l`: `a` goes after every earlier
element `b` with `le b a`. -/
def insertStable (le : α → α → Bool) (a : α) : List α → List α
  | [] => [a]
  | b :: l => if le b a then b :: insertStable le a l else a :: b :: l

/-- Stable ascending sort with comparator `le`. Python `list.sort` is a
stable ascending sort; every stable sort over the same total-preorder
comparator returns the same list, so the source's (stable, ascending)
sort is embedded as a stable insertion sort. -/
def stableSort (le : α → α → Bool) (l : List α) : List α :=
  l.foldl (fun acc a => insertStable le a acc) []

/-- Configuration for a model to benchmark (`ModelConfig` dataclass). -/
structure ModelConfig where
  id : String
  category : String
  quantization : String
  min_vram_gb : ℤ
  recommended_context : ℤ
deriving DecidableEq, Repr

/-- Model database organized by category (`MODEL_CATEGORIES` dict,
in insertion order). -/
def MODEL_CATEGORIES : List (String × List ModelConfig) :=
  [ ("7b",
      [ { id := "Qwen/Qwen2.5-Coder-7B-Instruct", category := "7b",
          quantization := "full", min_vram_gb := 16, recommended_context := 32768 },
        { id := "deepseek-ai/deepseek-coder-7b-instruct-v1.5", category := "7b",
          quantization := "full", min_vram_gb := 16, recommended_context := 16384 } ]),
    ("14b",
      [ { id := "Qwen/Qwen2.5-Coder-14B-Instruct-AWQ", category := "14b",
          quantization := "awq", min_vram_gb := 18, recommended_context := 32768 },
        { id := "Qwen/Qwen2.5-Coder-14B-Instruct", category := "14b",
          quantization := "full", min_vram_gb := 32, recommended_context := 32768 } ]),
    ("30b",
      [ { id := "Qwen/Qwen2.5-Coder-32B-Instruct-AWQ", category := "30b",
          quantization := "awq", min_vram_gb := 35, recommended_context := 32768 },
        { id := "deepseek-ai/deepseek-coder-33b-instruct", category := "30b",
          quantization := "full", min_vram_gb := 70, recommended_context := 16384 } ]),
    ("70b",
      [ { id := "Qwen/Qwen2.5-72B-Instruct-AWQ", category := "70b",
          quantization := "awq", min_vram_gb := 70, recommended_context := 32768 },
        { id := "deepseek-ai/DeepSeek-Coder-V2-Instruct", category := "70b",
          quantization := "full", min_vram_gb := 140, recommended_context := 32768 } ]) ]

/-- Every model of the catalog, in catalog iteration order. -/
def allCatalogModels : List ModelConfig :=
  MODEL_CATEGORIES.flatMap (fun p => p.2)

/-- Membership test of `quantization in ["awq", "gptq"]`. -/
def isQuantized (m : ModelConfig) : Bool :=
  m.quantization == "awq" || m.quantization == "gptq"

/-- Sort key of `get_recommended_models`:
`(not is_quantized, -min_vram_gb)` when quantized models are preferred,
`(is_quantized, -min_vram_gb)` otherwise. -/
def grmSortKey (prefer_quantized : Bool) (m : ModelConfig) : Bool × ℤ :=
  if prefer_quantized then (!(isQuantized m), -m.min_vram_gb)
  else (isQuantized m, -m.min_vram_gb)

/-- Python comparison `key1 <= key2` on `(bool, int)` sort keys, with
`False < True` as in Python. -/
def boolIntKeyLe (a b : Bool × ℤ) : Bool :=
  (!a.1 && b.1) || (a.1 == b.1 && decide (a.2 ≤ b.2))

/-- Embedding of `get_recommended_models`: collect every catalog model
whose `min_vram_gb` fits the budget, then stable-sort by the preference
key (quantized first when preferred, larger VRAM requirement first). -/
def get_recommended_models (vram_gb : ℤ) (prefer_quantized : Bool := true) :
    List ModelConfig :=
  let suitable := MODEL_CATEGORIES.flatMap
    (fun p => p.2.filter (fun m => decide (m.min_vram_gb ≤ vram_gb)))
  stableSort
    (fun a b => boolIntKeyLe (grmSortKey prefer_quantized a) (grmSortKey prefer_quantized b))
    suitable

/-- Embedding of `get_model_category`: substring markers checked
largest category first on the lower-cased model id. -/
def get_model_category (model_id : String) : String :=
  let m := strLower model_id
  if strContains m "70b" || strContains m "72b" then "70b"
  else if strContains m "30b" || strContains m "32b" || strContains m "33b" then "30b"
  else if strContains m "14b" || strContains m "15b" then "14b"
  else if strContains m "7b" || strContains m "8b" then "7b"
  else if strContains m "3b" || strContains m "1b" then "small"
  else "unknown"

/-- Embedding of `get_quantization_type`. -/
def get_quantization_type (model_id : String) : String :=
  let m := strLower model_id
  if strContains m "awq" then "awq"
  else if strContains m "gptq" then "gptq"
  else if strContains m "gguf" then "gguf"
  else "full"

/-- Embedding of `_group_models_by_category`: group a model list by
category, first-occurrence order, via `setdefault`/append. -/
def group_models_by_category (models : List ModelConfig) :
    List (String × List ModelConfig) :=
  models.foldl
    (fun groups m =>
      if groups.any (fun p => p.1 == m.category) then
        groups.map (fun p => if p.1 == m.category then (p.1, p.2 ++ [m]) else p)
      else groups ++ [(m.category, [m])])
    []

/-- Category preference order used by `select_models_for_vram`. -/
def categoryOrder : List String := ["70b", "30b", "14b", "7b"]

/-- Embedding of `_select_primary_quantized`: first category in order
with a quantized candidate yields that candidate as a singleton,
otherwise the empty list. -/
def select_primary_quantized (by_category : List (String × List ModelConfig))
    (category_order : List String) : List ModelConfig :=
  match category_order with
  | [] => []
  | category :: rest =>
    let candidates := ((by_category.lookup category).getD [])
    let quantized := candidates.filter isQuantized
    match quantized with
    | [] => select_primary_quantized by_category rest
    | m :: _ => [m]

/-- Embedding of `_append_full_precision`: when fewer than 3 models are
selected, append the first not-yet-selected full-precision candidate in
category order (the source mutates `selected`; the embedding returns the
new list). -/
def append_full_precision (by_category : List (String × List ModelConfig))
    (category_order : List String) (selected : List ModelConfig) :
    List ModelConfig :=
  if 3 ≤ selected.length then selected
  else
    match category_order with
    | [] => selected
    | category :: rest =>
      let candidates := ((by_category.lookup category).getD [])
      let full_precision := candidates.filter (fun m => m.quantization == "full")
      match full_precision with
      | [] => append_full_precision by_category rest selected
      | m :: _ =>
        if selected.contains m then append_full_precision by_category rest selected
        else selected ++ [m]

/-- Embedding of `select_models_for_vram`. -/
def select_models_for_vram (vram_gb : ℤ) : List ModelConfig :=
  let all_suitable := get_recommended_models vram_gb true
  if all_suitable = [] then []
  else
    let by_category := group_models_by_category all_suitable
    let selected := select_primary_quantized by_category categoryOrder
    let selected := if 80 ≤ vram_gb then append_full_precision by_category categoryOrder selected
      else selected
    selected.take 3

/-- Base context lengths dictionary of `get_recommended_context_length`. -/
def base_context : List (String × ℤ) :=
  [("7b", 32768), ("14b", 32768), ("30b", 32768), ("70b", 32768)]

/-- Embedding of `get_recommended_context_length`. -/
def get_recommended_context_length (vram_gb : ℤ) (model_category : String) : ℤ :=
  let base := (base_context.lookup model_category).getD 16384
  if model_category = "70b" then
    if 120 ≤ vram_gb then 65536
    else if 96 ≤ vram_gb then 32768
    else 16384
  else if model_category = "30b" then
    if 60 ≤ vram_gb then 65536
    else if 40 ≤ vram_gb then 32768
    else 16384
  else base

/-! Embedding of `src/maider/benchmark_db.py`.

The on-disk JSON store is modelled as the list of records added to it,
in insertion order (`add_result` appends). Records added through
`add_result` are `asdict` images of well-formed `BenchmarkResult`
values, so the `BenchmarkResult(**benchmark)` re-parse in `get_results`
always succeeds on them and every stored record is syntactically valid.
Of `results_by_category` only the key set is kept (its values are never
read by the query or the engine), and of `summary` only the two metric
entries the engine reads, as `Option` values standing for key
presence. -/

/-- Embedding of the `BenchmarkResult` dataclass (fields the verified
code reads). -/
structure BenchmarkResult where
  id : String
  timestamp : String
  gpu_type : String
  gpu_count : ℤ
  vram_per_gpu : ℤ
  total_vram : ℤ
  hourly_cost : ℚ
  model_id : String
  model_category : String
  results_by_category : List String
  summary_avg_tokens_per_sec : Option ℚ
  summary_cost_per_1k_tokens : Option ℚ
deriving DecidableEq, Repr

/-- Filter test of `get_results` for one record. A `none` filter is
Python `None`; a `some ""` filter is falsy in Python (`if gpu_type:`),
so it is skipped exactly like `None`. The `task_category` filter tests
key membership in `results_by_category`. -/
def passesFilters (gpu_type model_category task_category : Option String)
    (b : BenchmarkResult) : Bool :=
  (match gpu_type with
   | none => true
   | some s => s == "" || b.gpu_type == s)
  && (match model_category with
      | none => true
      | some s => s == "" || b.model_category == s)
  && (match task_category with
      | none => true
      | some s => s == "" || b.results_by_category.contains s)

/-- Embedding of `BenchmarkDatabase.get_results`: keep, in insertion
order, every stored record that passes all (truthy) filters. -/
def get_results (benchmarks : List BenchmarkResult)
    (gpu_type : Option String := none) (model_category : Option String := none)
    (task_category : Option String := none) : List BenchmarkResult :=
  benchmarks.filter (passesFilters gpu_type model_category task_category)

/-! Embedding of `src/maider/recommendations.py`. -/

/-- Task types (`TaskType` enum). -/
inductive TaskType where
  | CODING
  | CONTEXT_HEAVY
  | REASONING
  | MIXED
deriving DecidableEq, Repr

/-- Value strings of the `TaskType` enum. -/
def TaskType.value : TaskType → String
  | .CODING => "coding"
  | .CONTEXT_HEAVY => "context_heavy"
  | .REASONING => "reasoning"
  | .MIXED => "mixed"

/-- Budget constraints (`BudgetConstraint` enum). -/
inductive BudgetConstraint where
  | UNDER_1
  | ONE_TO_THREE
  | OVER_THREE
  | NO_CONSTRAINT
deriving DecidableEq, Repr

/-- Model size preferences (`ModelSizePreference` enum). -/
inductive ModelSizePreference where
  | SMALLEST_VIABLE
  | BALANCED
  | LARGEST_AVAILABLE
deriving DecidableEq, Repr

/-- Embedding of the `Recommendation` dataclass. -/
structure Recommendation where
  gpu_type : String
  gpu_count : ℤ
  total_vram : ℤ
  model_id : String
  model_category : String
  avg_tokens_per_sec : ℚ
  cost_per_1k_tokens : ℚ
  hourly_cost : ℚ
  cost_efficiency : ℚ
  confidence_level : String
  confidence_color : String
  num_benchmark_runs : ℕ
  task_category : String
  notes : List String
deriving DecidableEq, Repr

/-- Embedding of `RecommendationEngine.calculate_cost_efficiency`. -/
def calculate_cost_efficiency (tokens_per_sec hourly_cost : ℚ) : ℚ :=
  if hourly_cost ≤ 0 then 0 else tokens_per_sec / hourly_cost

/-- Embedding of `RecommendationEngine.calculate_confidence`. -/
def calculate_confidence (num_runs : ℕ) : String × String :=
  if 3 ≤ num_runs then ("High", "green")
  else if num_runs = 2 then ("Medium", "yellow")
  else if num_runs = 1 then ("Low", "red")
  else ("None", "dim")

/-- Embedding of the `matches_budget` closure of `_filter_by_budget`
(including its final `return True` fallthrough, reached for
`NO_CONSTRAINT`). -/
def matches_budget (budget : BudgetConstraint) (cost : ℚ) : Bool :=
  match budget with
  | .UNDER_1 => decide (cost < 1)
  | .ONE_TO_THREE => decide (1 ≤ cost) && decide (cost ≤ 3)
  | .OVER_THREE => decide (3 < cost)
  | .NO_CONSTRAINT => true

/-- Embedding of `_filter_by_budget`: identity for `NO_CONSTRAINT`,
otherwise keep the records whose `hourly_cost` matches the band. -/
def filter_by_budget (results : List BenchmarkResult) (budget : BudgetConstraint) :
    List BenchmarkResult :=
  if budget = BudgetConstraint.NO_CONSTRAINT then results
  else results.filter (fun r => matches_budget budget r.hourly_cost)

/-- Embedding of `_group_by_config`: group records by the
`"{gpu_type}|{model_category}"` key, groups in first-occurrence order,
records of a group in input order. -/
def group_by_config (results : List BenchmarkResult) :
    List (String × List BenchmarkResult) :=
  results.foldl
    (fun groups r =>
      let key := r.gpu_type ++ "|" ++ r.model_category
      if groups.any (fun p => p.1 == key) then
        groups.map (fun p => if p.1 == key then (p.1, p.2 ++ [r]) else p)
      else groups ++ [(key, [r])])
    []

/-- Summary metric read `r.summary.get("avg_tokens_per_sec", 0)`. -/
def summaryAvgTps (r : BenchmarkResult) : ℚ :=
  r.summary_avg_tokens_per_sec.getD 0

/-- Summary metric read `r.summary.get("cost_per_1k_tokens", 0)`. -/
def summaryCost1k (r : BenchmarkResult) : ℚ :=
  r.summary_cost_per_1k_tokens.getD 0

/-- Embedding of `_create_recommendation`: `None` on an empty group,
otherwise identity fields come from the last (most recently added)
record, metrics are arithmetic means over the group, cost efficiency
and confidence are derived, and the notes list follows the source. -/
def create_recommendation (results : List BenchmarkResult) (task_category : String) :
    Option Recommendation :=
  if h : results = [] then none
  else
    let primary := results.getLast h
    let avg_tps : ℚ := (results.map summaryAvgTps).sum / (results.length : ℚ)
    let avg_cost_1k : ℚ := (results.map summaryCost1k).sum / (results.length : ℚ)
    let cost_efficiency := calculate_cost_efficiency avg_tps primary.hourly_cost
    let num_runs := results.length
    let conf := calculate_confidence num_runs
    let notes :=
      (if num_runs = 1 then ["⚠ Single benchmark - results may vary"]
       else if num_runs = 2 then ["Based on limited data (2 runs)"]
       else [])
      ++ (if task_category = "mixed" then ["Averaged across all task categories"] else [])
    some
      { gpu_type := primary.gpu_type
        gpu_count := primary.gpu_count
        total_vram := primary.total_vram
        model_id := primary.model_id
        model_category := primary.model_category
        avg_tokens_per_sec := avg_tps
        cost_per_1k_tokens := avg_cost_1k
        hourly_cost := primary.hourly_cost
        cost_efficiency := cost_efficiency
        confidence_level := conf.1
        confidence_color := conf.2
        num_benchmark_runs := num_runs
        task_category := task_category
        notes := notes }

/-- Embedding of the `confidence_priority` dict of `rank_key`. The
source indexes the dict directly and would raise `KeyError` on any
other string; the engine only ever produces the four listed levels, and
the sentinel value 4 marks the unreachable `KeyError` case. -/
def confidence_priority (level : String) : ℕ :=
  if level = "High" then 0
  else if level = "Medium" then 1
  else if level = "Low" then 2
  else if level = "None" then 3
  else 4

/-- Embedding of the VRAM component of `rank_key`: `-total_vram` for
`SMALLEST_VIABLE`, `total_vram` for `LARGEST_AVAILABLE`, and
`abs(72 - total_vram)` for `BALANCED`. -/
def vram_priority (pref : ModelSizePreference) (rec : Recommendation) : ℤ :=
  match pref with
  | .SMALLEST_VIABLE => -rec.total_vram
  | .LARGEST_AVAILABLE => rec.total_vram
  | .BALANCED => abs (72 - rec.total_vram)

/-- Embedding of `rank_key`: the sort key tuple
`(confidence_priority, -cost_efficiency, vram_priority, -avg_tokens_per_sec)`. -/
def rank_key (pref : ModelSizePreference) (rec : Recommendation) : ℕ × ℚ × ℤ × ℚ :=
  (confidence_priority rec.confidence_level,
   -rec.cost_efficiency,
   vram_priority pref rec,
   -rec.avg_tokens_per_sec)

/-- Strict lexicographic comparison of `rank_key` tuples, the order by
which Python `tuple.__lt__` compares them. -/
def keyLt (k1 k2 : ℕ × ℚ × ℤ × ℚ) : Prop :=
  k1.1 < k2.1
  ∨ (k1.1 = k2.1
     ∧ (k1.2.1 < k2.2.1
        ∨ (k1.2.1 = k2.2.1
           ∧ (k1.2.2.1 < k2.2.2.1
              ∨ (k1.2.2.1 = k2.2.2.1 ∧ k1.2.2.2 < k2.2.2.2)))))

instance (k1 k2 : ℕ × ℚ × ℤ × ℚ) : Decidable (keyLt k1 k2) := by
  unfold keyLt
  infer_instance

/-- Boolean non-strict lexicographic comparison of `rank_key` tuples;
sorting with it ascending and stably is Python `list.sort(key=rank_key)`. -/
def keyLeB (k1 k2 : ℕ × ℚ × ℤ × ℚ) : Bool :=
  decide (k1.1 < k2.1)
  || (k1.1 == k2.1
      && (decide (k1.2.1 < k2.2.1)
          || (k1.2.1 == k2.2.1
              && (decide (k1.2.2.1 < k2.2.2.1)
                  || (k1.2.2.1 == k2.2.2.1 && decide (k1.2.2.2 ≤ k2.2.2.2))))))

/-- Embedding of `_rank_recommendations`: stable ascending sort by
`rank_key`. -/
def rank_recommendations (recommendations : List Recommendation)
    (model_size_pref : ModelSizePreference) : List Recommendation :=
  stableSort
    (fun a b => keyLeB (rank_key model_size_pref a) (rank_key model_size_pref b))
    recommendations

/-- Python `task_category or "mixed"`: `None` and the empty string are
falsy and give `"mixed"`. -/
def taskCategoryOrMixed : Option String → String
  | none => "mixed"
  | some t => if t = "" then "mixed" else t

/-- Embedding of `RecommendationEngine.recommend` over a store
(the list of records in the database, insertion order). -/
def recommend (store : List BenchmarkResult) (task_type : TaskType)
    (budget_constraint : BudgetConstraint) (model_size_pref : ModelSizePreference)
    (limit : ℕ := 3) : List Recommendation :=
  let task_category : Option String :=
    if task_type = TaskType.MIXED then none else some task_type.value
  let results := get_results store none none task_category
  if results = [] then []
  else
    let results2 := filter_by_budget results budget_constraint
    if results2 = [] then []
    else
      let config_groups := group_by_config results2
      let recommendations := config_groups.filterMap
        (fun g => create_recommendation g.2 (taskCategoryOrMixed task_category))
      let ranked := rank_recommendations recommendations model_size_pref
      ranked.take limit

/-! Definitions supporting the claim statements: a ranking of the size
categories, predicates transcribing the specification text (used only
to compare the source functions against the spec wording), and concrete
sample data for witnesses and counterexamples. -/

/-- Rank of a size category in the preference order
`["70b", "30b", "14b", "7b"]` of `select_models_for_vram` (larger
category, larger rank). -/
def catRank (category : String) : ℕ :=
  if category = "70b" then 3
  else if category = "30b" then 2
  else if category = "14b" then 1
  else 0

/-- Modelled from the spec wording of the query contract: a record
matches when it satisfies every non-null filter, a `task_category`
filter matching only records whose `results_by_category` contains that
key. -/
def matchesNonNullFilters (gpu_type model_category task_category : Option String)
    (r : BenchmarkResult) : Prop :=
  (∀ s, gpu_type = some s → r.gpu_type = s)
  ∧ (∀ s, model_category = some s → r.model_category = s)
  ∧ (∀ s, task_category = some s → s ∈ r.results_by_category)

/-- Modelled from the amended query contract: a record matches when it
satisfies every truthy (non-null and non-empty) filter; empty-string
filters are treated as absent, as Python truthiness makes them. -/
def matchesTruthyFilters (gpu_type model_category task_category : Option String)
    (r : BenchmarkResult) : Prop :=
  (∀ s, gpu_type = some s → s ≠ "" → r.gpu_type = s)
  ∧ (∀ s, model_category = some s → s ≠ "" → r.model_category = s)
  ∧ (∀ s, task_category = some s → s ≠ "" → s ∈ r.results_by_category)

/-- Sample benchmark record for witnesses and counterexamples. -/
def sampleResult (gpu cat : String) (cost : ℚ) (cats : List String) (tps : ℚ) :
    BenchmarkResult :=
  { id := "id0"
    timestamp := "t0"
    gpu_type := gpu
    gpu_count := 2
    vram_per_gpu := 48
    total_vram := 96
    hourly_cost := cost
    model_id := "m0"
    model_category := cat
    results_by_category := cats
    summary_avg_tokens_per_sec := some tps
    summary_cost_per_1k_tokens := some 1 }

/-- Sample recommendation that varies only in confidence level and
total VRAM; every other ranking factor is fixed. -/
def sampleRec (level : String) (vram : ℤ) : Recommendation :=
  { gpu_type := "g"
    gpu_count := 1
    total_vram := vram
    model_id := "m"
    model_category := "30b"
    avg_tokens_per_sec := 10
    cost_per_1k_tokens := 1
    hourly_cost := 1
    cost_efficiency := 10
    confidence_level := level
    confidence_color := "red"
    num_benchmark_runs := 1
    task_category := "coding"
    notes := [] }

/-- Shorthand for the quantized 14B catalog entry. -/
def q14awq : ModelConfig :=
  { id := "Qwen/Qwen2.5-Coder-14B-Instruct-AWQ", category := "14b",
    quantization := "awq", min_vram_gb := 18, recommended_context := 32768 }

/-- Shorthand for the quantized 32B catalog entry. -/
def q32awq : ModelConfig :=
  { id := "Qwen/Qwen2.5-Coder-32B-Instruct-AWQ", category := "30b",
    quantization := "awq", min_vram_gb := 35, recommended_context := 32768 }

/-- Shorthand for the quantized 72B catalog entry. -/
def q72awq : ModelConfig :=
  { id := "Qwen/Qwen2.5-72B-Instruct-AWQ", category := "70b",
    quantization := "awq", min_vram_gb := 70, recommended_context := 32768 }

/-- Shorthand for the full-precision 33B catalog entry. -/
def ds33full : ModelConfig :=
  { id := "deepseek-ai/deepseek-coder-33b-instruct", category := "30b",
    quantization := "full", min_vram_gb := 70, recommended_context := 16384 }

/-- Shorthand for the full-precision DeepSeek V2 catalog entry. -/
def dsV2full : ModelConfig :=
  { id := "deepseek-ai/DeepSeek-Coder-V2-Instruct", category := "70b",
    quantization := "full", min_vram_gb := 140, recommended_context := 32768 }

/-! Theorems. -/

/-- Characterization of the Boolean prefix test. -/
theorem listPrefix_iff (p l : List Char) : listPrefix p l = true ↔ p <+: l := by
  induction p generalizing l with
  | nil => simp [listPrefix]
  | cons a as ih =>
    cases l with
    | nil => simp [listPrefix]
    | cons b bs => simp [listPrefix, List.cons_prefix_cons, ih]

/-- Characterization of the Boolean substring test on lists. -/
theorem listContains_iff (s p : List Char) : listContains s p = true ↔ p <:+: s := by
  induction s with
  | nil => simp [listContains, listPrefix_iff]
  | cons c rest ih => simp [listContains, listPrefix_iff, ih, List.infix_cons_iff]

/-- Characterization of the Boolean substring test on strings. -/
theorem strContains_iff (s p : String) : strContains s p = true ↔ p.data <:+: s.data := by
  simpa [strContains] using listContains_iff s.data p.data

/-- C7: the size-category classifier checks substring markers largest
category first on the lower-cased id ("70b"/"72b", then
"30b"/"32b"/"33b", then "14b"/"15b", then "7b"/"8b", then "3b"/"1b",
else "unknown"), and on the scenario id
"Qwen/Qwen2.5-Coder-32B-Instruct-AWQ" it returns "30b" while the
quantization classifier returns "awq". -/
theorem C7_model_category_table :
    (∀ s : String,
      ((strContains (strLower s) "70b" || strContains (strLower s) "72b") = true →
        get_model_category s = "70b")
      ∧ ((strContains (strLower s) "70b" || strContains (strLower s) "72b") = false →
         (strContains (strLower s) "30b" || strContains (strLower s) "32b"
            || strContains (strLower s) "33b") = true →
         get_model_category s = "30b")
      ∧ ((strContains (strLower s) "70b" || strContains (strLower s) "72b") = false →
         (strContains (strLower s) "30b" || strContains (strLower s) "32b"
            || strContains (strLower s) "33b") = false →
         (strContains (strLower s) "14b" || strContains (strLower s) "15b") = true →
         get_model_category s = "14b")
      ∧ ((strContains (strLower s) "70b" || strContains (strLower s) "72b") = false →
         (strContains (strLower s) "30b" || strContains (strLower s) "32b"
            || strContains (strLower s) "33b") = false →
         (strContains (strLower s) "14b" || strContains (strLower s) "15b") = false →
         (strContains (strLower s) "7b" || strContains (strLower s) "8b") = true →
         get_model_category s = "7b")
      ∧ ((strContains (strLower s) "70b" || strContains (strLower s) "72b") = false →
         (strContains (strLower s) "30b" || strContains (strLower s) "32b"
            || strContains (strLower s) "33b") = false →
         (strContains (strLower s) "14b" || strContains (strLower s) "15b") = false →
         (strContains (strLower s) "7b" || strContains (strLower s) "8b") = false →
         (strContains (strLower s) "3b" || strContains (strLower s) "1b") = true →
         get_model_category s = "small")
      ∧ ((strContains (strLower s) "70b" || strContains (strLower s) "72b") = false →
         (strContains (strLower s) "30b" || strContains (strLower s) "32b"
            || strContains (strLower s) "33b") = false →
         (strContains (strLower s) "14b" || strContains (strLower s) "15b") = false →
         (strContains (strLower s) "7b" || strContains (strLower s) "8b") = false →
         (strContains (strLower s) "3b" || strContains (strLower s) "1b") = false →
         get_model_category s = "unknown"))
    ∧ get_model_category "Qwen/Qwen2.5-Coder-32B-Instruct-AWQ" = "30b"
    ∧ get_quantization_type "Qwen/Qwen2.5-Coder-32B-Instruct-AWQ" = "awq" := by
  refine ⟨fun s => ⟨?_, ?_, ?_, ?_, ?_, ?_⟩, by decide, by decide⟩
  all_goals intros
  all_goals simp_all [get_model_category]

/-- Witness for C7 at concrete ids, one per decision level. -/
theorem C7_model_category_table_witness :
    get_model_category "big-70B-x" = "70b" ∧ get_model_category "mid-33B-x" = "30b" := by
  refine ⟨(C7_model_category_table.1 "big-70B-x").1 (by decide),
    (C7_model_category_table.1 "mid-33B-x").2.1 (by decide) (by decide)⟩

/-- C8: the recommended context length follows the literal decision
table for the "70b" and "30b" categories, and every other category
returns its fixed base value independently of the VRAM amount. -/
theorem C8_context_table :
    (∀ v : ℤ,
      (120 ≤ v → get_recommended_context_length v "70b" = 65536)
      ∧ (96 ≤ v → v < 120 → get_recommended_context_length v "70b" = 32768)
      ∧ (v < 96 → get_recommended_context_length v "70b" = 16384)
      ∧ (60 ≤ v → get_recommended_context_length v "30b" = 65536)
      ∧ (40 ≤ v → v < 60 → get_recommended_context_length v "30b" = 32768)
      ∧ (v < 40 → get_recommended_context_length v "30b" = 16384))
    ∧ (∀ category : String, category ≠ "70b" → category ≠ "30b" →
        ∀ v1 v2 : ℤ,
          get_recommended_context_length v1 category
            = get_recommended_context_length v2 category
          ∧ get_recommended_context_length v1 category
            = (base_context.lookup category).getD 16384) := by
  constructor
  · intro v
    refine ⟨fun h => ?_, fun h h2 => ?_, fun h => ?_, fun h => ?_, fun h h2 => ?_, fun h => ?_⟩
    all_goals
      simp only [get_recommended_context_length]
      split_ifs <;> first | rfl | omega | simp_all
  · intro category h70 h30 v1 v2
    constructor <;> simp [get_recommended_context_length, h70, h30]

/-- Witness for C8 at concrete inputs in each region of the table. -/
theorem C8_context_table_witness :
    get_recommended_context_length 130 "70b" = 65536
    ∧ get_recommended_context_length 50 "30b" = 32768
    ∧ get_recommended_context_length 5 "7b" = (base_context.lookup "7b").getD 16384 := by
  refine ⟨(C8_context_table.1 130).1 (by norm_num),
    (C8_context_table.1 50).2.2.2.2.1 (by norm_num) (by norm_num),
    (C8_context_table.2 "7b" (by decide) (by decide) 5 99).2⟩

/-- C10: the size-category classifier is total with range exactly
{"70b", "30b", "14b", "7b", "small", "unknown"}, and an id containing
"13b" but none of the earlier-checked markers is classified "small"
because "13b" contains the "3b" marker. -/
theorem C10_category_total_small :
    (∀ s : String,
      get_model_category s ∈ (["70b", "30b", "14b", "7b", "small", "unknown"] : List String))
    ∧ (∀ s : String,
        strContains (strLower s) "13b" = true →
        strContains (strLower s) "70b" = false → strContains (strLower s) "72b" = false →
        strContains (strLower s) "30b" = false → strContains (strLower s) "32b" = false →
        strContains (strLower s) "33b" = false → strContains (strLower s) "14b" = false →
        strContains (strLower s) "15b" = false → strContains (strLower s) "7b" = false →
        strContains (strLower s) "8b" = false →
        get_model_category s = "small") := by
  constructor
  · intro s
    simp only [get_model_category]
    split_ifs <;> simp
  · intro s h13 h70 h72 h30 h32 h33 h14 h15 h7 h8
    have h3 : strContains (strLower s) "3b" = true := by
      rw [strContains_iff] at h13 ⊢
      exact List.IsInfix.trans (by decide) h13
    simp [get_model_category, h70, h72, h30, h32, h33, h14, h15, h7, h8, h3]

/-- Witness for C10 at the id "foo-13b". -/
theorem C10_category_total_small_witness :
    strContains (strLower "foo-13b") "13b" = true
    ∧ get_model_category "foo-13b" = "small" := by
  refine ⟨by decide, C10_category_total_small.2 "foo-13b" (by decide) (by decide) (by decide)
    (by decide) (by decide) (by decide) (by decide) (by decide) (by decide) (by decide)⟩

/-- C1: evaluation of the ranking step at the divergent input. Two
recommendations agree on every ranking factor except `total_vram` (48
vs 96). Under `SMALLEST_VIABLE` the source negates `total_vram` before
the ascending sort, so the 96GB recommendation precedes the 48GB one —
the opposite of the claimed (and comment-documented) "smaller first" —
and symmetrically `LARGEST_AVAILABLE` puts the 48GB one first. Only
`BALANCED` behaves as claimed. -/
theorem C1_rank_key_vram_direction :
    keyLt (rank_key ModelSizePreference.SMALLEST_VIABLE (sampleRec "Low" 96))
      (rank_key ModelSizePreference.SMALLEST_VIABLE (sampleRec "Low" 48))
    ∧ ¬ keyLt (rank_key ModelSizePreference.SMALLEST_VIABLE (sampleRec "Low" 48))
        (rank_key ModelSizePreference.SMALLEST_VIABLE (sampleRec "Low" 96))
    ∧ keyLt (rank_key ModelSizePreference.LARGEST_AVAILABLE (sampleRec "Low" 48))
        (rank_key ModelSizePreference.LARGEST_AVAILABLE (sampleRec "Low" 96))
    ∧ keyLt (rank_key ModelSizePreference.BALANCED (sampleRec "Low" 72))
        (rank_key ModelSizePreference.BALANCED (sampleRec "Low" 96))
    ∧ rank_recommendations [sampleRec "Low" 48, sampleRec "Low" 96]
        ModelSizePreference.SMALLEST_VIABLE
      = [sampleRec "Low" 96, sampleRec "Low" 48] := by
  decide

/-- C2: a non-empty group yields one recommendation whose identity
fields come from the last (most recently added) record, whose
throughput and cost-per-1K are arithmetic means over the group, whose
run count is the group size, and whose cost efficiency is mean
throughput over the representative hourly cost (0 when that cost is
not positive). -/
theorem C2_group_aggregation :
    ∀ (results : List BenchmarkResult) (tc : String) (h : results ≠ []),
      ∃ rec, create_recommendation results tc = some rec
        ∧ rec.gpu_type = (results.getLast h).gpu_type
        ∧ rec.gpu_count = (results.getLast h).gpu_count
        ∧ rec.total_vram = (results.getLast h).total_vram
        ∧ rec.model_id = (results.getLast h).model_id
        ∧ rec.model_category = (results.getLast h).model_category
        ∧ rec.hourly_cost = (results.getLast h).hourly_cost
        ∧ rec.avg_tokens_per_sec = (results.map summaryAvgTps).sum / (results.length : ℚ)
        ∧ rec.cost_per_1k_tokens = (results.map summaryCost1k).sum / (results.length : ℚ)
        ∧ rec.num_benchmark_runs = results.length
        ∧ (rec.confidence_level, rec.confidence_color) = calculate_confidence results.length
        ∧ rec.cost_efficiency =
            (if (results.getLast h).hourly_cost ≤ 0 then 0
             else (results.map summaryAvgTps).sum / (results.length : ℚ)
               / (results.getLast h).hourly_cost)
        ∧ rec.task_category = tc := by
  intro results tc h
  unfold create_recommendation
  rw [dif_neg h]
  exact ⟨_, rfl, rfl, rfl, rfl, rfl, rfl, rfl, rfl, rfl, rfl, rfl, rfl, rfl⟩

/-- Witness for C2: the scenario of three records of one config with
throughputs 44, 45, 46 at hourly cost 3 gives one recommendation with
confidence "High", averaged throughput 45 and 3 runs. -/
theorem C2_group_aggregation_witness :
    ∃ rec, create_recommendation
        [sampleResult "X" "70b" 3 ["coding"] 44, sampleResult "X" "70b" 3 ["coding"] 45,
         sampleResult "X" "70b" 3 ["coding"] 46] "coding" = some rec
      ∧ rec.confidence_level = "High"
      ∧ rec.avg_tokens_per_sec = 45
      ∧ rec.num_benchmark_runs = 3 := by
  obtain ⟨rec, heq, _, _, _, _, _, _, htps, _, hruns, hconf, _, _⟩ :=
    C2_group_aggregation
      [sampleResult "X" "70b" 3 ["coding"] 44, sampleResult "X" "70b" 3 ["coding"] 45,
       sampleResult "X" "70b" 3 ["coding"] 46] "coding" (by decide)
  refine ⟨rec, heq, ?_, ?_, ?_⟩
  · have h1 := congrArg Prod.fst hconf
    simpa [calculate_confidence] using h1
  · rw [htps]
    norm_num [summaryAvgTps, sampleResult]
  · rw [hruns]
    rfl

/-- C3: confidence is "High" for 3 or more runs, "Medium" for 2, "Low"
for 1 and "None" for 0; the mapping is monotone in the run count (more
runs never worsen the confidence rank), and in the ranking key a
recommendation with strictly better confidence precedes one with worse
confidence when every other ranking factor is equal. -/
theorem C3_confidence_levels :
    (∀ n : ℕ, 3 ≤ n → calculate_confidence n = ("High", "green"))
    ∧ calculate_confidence 2 = ("Medium", "yellow")
    ∧ calculate_confidence 1 = ("Low", "red")
    ∧ calculate_confidence 0 = ("None", "dim")
    ∧ (∀ m n : ℕ, m ≤ n →
        confidence_priority (calculate_confidence n).1
          ≤ confidence_priority (calculate_confidence m).1)
    ∧ (∀ (pref : ModelSizePreference) (r1 r2 : Recommendation),
        confidence_priority r1.confidence_level < confidence_priority r2.confidence_level →
        r1.cost_efficiency = r2.cost_efficiency →
        vram_priority pref r1 = vram_priority pref r2 →
        r1.avg_tokens_per_sec = r2.avg_tokens_per_sec →
        keyLt (rank_key pref r1) (rank_key pref r2)) := by
  have e : ∀ k : ℕ, confidence_priority (calculate_confidence k).1
      = if 3 ≤ k then 0 else if k = 2 then 1 else if k = 1 then 2 else 3 := by
    intro k
    simp only [calculate_confidence]
    split_ifs <;> simp [confidence_priority]
  refine ⟨?_, by decide, by decide, by decide, ?_, ?_⟩
  · intro n h
    simp [calculate_confidence, h]
  · intro m n h
    rw [e, e]
    split_ifs <;> omega
  · intro pref r1 r2 hc _ _ _
    exact Or.inl hc

/-- Witness for C3 at concrete run counts and recommendations. -/
theorem C3_confidence_levels_witness :
    calculate_confidence 3 = ("High", "green")
    ∧ confidence_priority (calculate_confidence 3).1
        ≤ confidence_priority (calculate_confidence 1).1
    ∧ keyLt (rank_key ModelSizePreference.BALANCED (sampleRec "High" 48))
        (rank_key ModelSizePreference.BALANCED (sampleRec "Medium" 48)) := by
  refine ⟨C3_confidence_levels.1 3 (by norm_num),
    C3_confidence_levels.2.2.2.2.1 1 3 (by norm_num),
    C3_confidence_levels.2.2.2.2.2 ModelSizePreference.BALANCED _ _ (by decide) rfl rfl rfl⟩

/-- C4: the three budget bands cover every cost and are pairwise
exclusive, the budget filter keeps exactly the records whose hourly
cost matches the selected band, `NO_CONSTRAINT` returns the input list
unchanged, and with records at 0.52 and 3.00 the `UNDER_1` filter
keeps only the 0.52 record. -/
theorem C4_budget_bands :
    (∀ c : ℚ,
      (c < 1 ∨ (1 ≤ c ∧ c ≤ 3) ∨ 3 < c)
      ∧ ¬(c < 1 ∧ 1 ≤ c ∧ c ≤ 3)
      ∧ ¬(c < 1 ∧ 3 < c)
      ∧ ¬((1 ≤ c ∧ c ≤ 3) ∧ 3 < c))
    ∧ (∀ (results : List BenchmarkResult) (budget : BudgetConstraint) (r : BenchmarkResult),
        r ∈ filter_by_budget results budget
          ↔ r ∈ results ∧ matches_budget budget r.hourly_cost = true)
    ∧ (∀ results : List BenchmarkResult,
        filter_by_budget results BudgetConstraint.NO_CONSTRAINT = results)
    ∧ filter_by_budget
        [sampleResult "a" "14b" (13/25) ["coding"] 28, sampleResult "b" "70b" 3 ["coding"] 45]
        BudgetConstraint.UNDER_1
      = [sampleResult "a" "14b" (13/25) ["coding"] 28] := by
  have hkeep : matches_budget BudgetConstraint.UNDER_1 ((13 : ℚ)/25) = true := by
    simp only [matches_budget, decide_eq_true_eq]
    norm_num
  have hdrop : matches_budget BudgetConstraint.UNDER_1 (3 : ℚ) = false := by
    simp only [matches_budget, decide_eq_false_iff_not]
    norm_num
  refine ⟨?_, ?_, fun results => rfl,
    by simp [filter_by_budget, List.filter_cons, sampleResult, hkeep, hdrop]⟩
  · intro c
    refine ⟨?_, ?_, ?_, ?_⟩
    · rcases lt_or_le c 1 with h | h
      · exact Or.inl h
      · rcases le_or_lt c 3 with h2 | h2
        · exact Or.inr (Or.inl ⟨h, h2⟩)
        · exact Or.inr (Or.inr h2)
    · rintro ⟨h1, h2, -⟩
      linarith
    · rintro ⟨h1, h2⟩
      linarith
    · rintro ⟨⟨-, h2⟩, h3⟩
      linarith
  · intro results budget r
    cases budget <;> simp [filter_by_budget, matches_budget, List.mem_filter]

/-- C5: `recommend` degrades to the empty list on an empty store, on a
budget band matched by no record, and on a task category for which no
record has data. -/
theorem C5_recommend_empty :
    (∀ (t : TaskType) (b : BudgetConstraint) (p : ModelSizePreference) (limit : ℕ),
      recommend [] t b p limit = [])
    ∧ (∀ (store : List BenchmarkResult) (t : TaskType) (b : BudgetConstraint)
        (p : ModelSizePreference) (limit : ℕ),
        (∀ r ∈ get_results store none none
            (if t = TaskType.MIXED then none else some t.value),
          matches_budget b r.hourly_cost = false) →
        recommend store t b p limit = [])
    ∧ (∀ (store : List BenchmarkResult) (t : TaskType) (b : BudgetConstraint)
        (p : ModelSizePreference) (limit : ℕ),
        t ≠ TaskType.MIXED →
        (∀ r ∈ store, t.value ∉ r.results_by_category) →
        recommend store t b p limit = []) := by
  refine ⟨?_, ?_, ?_⟩
  · intro t b p limit
    cases t <;> rfl
  · intro store t b p limit hall
    simp only [recommend]
    by_cases hres : get_results store none none
        (if t = TaskType.MIXED then none else some t.value) = []
    · simp [hres]
    · rw [if_neg hres]
      rcases eq_or_ne b BudgetConstraint.NO_CONSTRAINT with hb | hb
      · subst hb
        refine absurd (List.eq_nil_iff_forall_not_mem.mpr fun r hr => ?_) hres
        have := hall r hr
        simp [matches_budget] at this
      · have hfil : filter_by_budget (get_results store none none
            (if t = TaskType.MIXED then none else some t.value)) b = [] := by
          simp only [filter_by_budget]
          rw [if_neg hb]
          exact List.filter_eq_nil_iff.mpr fun r hr => by simp [hall r hr]
        simp [hfil]
  · intro store t b p limit hmix hnone
    have hval : (t.value == "") = false := by
      cases t
      case MIXED => exact absurd rfl hmix
      all_goals rfl
    have hres : get_results store none none
        (if t = TaskType.MIXED then none else some t.value) = [] := by
      rw [if_neg hmix]
      exact List.filter_eq_nil_iff.mpr fun r hr => by
        simp [passesFilters, hval, List.elem_iff, hnone r hr]
    simp [recommend, hres]

/-- Witness for C5: a store whose only record has data for "coding"
only yields no recommendation for the reasoning task. -/
theorem C5_recommend_empty_witness :
    recommend [sampleResult "g" "30b" 2 ["coding"] 30] TaskType.REASONING
      BudgetConstraint.NO_CONSTRAINT ModelSizePreference.BALANCED 3 = [] :=
  C5_recommend_empty.2.2 [sampleResult "g" "30b" 2 ["coding"] 30] TaskType.REASONING
    BudgetConstraint.NO_CONSTRAINT ModelSizePreference.BALANCED 3 (by decide) (by decide)

/-- C6 counterexample: with the record below stored, a query whose
`gpu_type` filter is the non-null empty string returns the record even
though the record does not match that filter, because Python treats
the empty-string filter as falsy and skips it; so "passes the query iff
it matches every non-null filter" fails as stated. -/
theorem C6_counterexample :
    ¬ (sampleResult "a" "c" 1 [] 1 ∈
          get_results [sampleResult "a" "c" 1 [] 1] (some "") none none
        ↔ sampleResult "a" "c" 1 [] 1 ∈ [sampleResult "a" "c" 1 [] 1]
          ∧ matchesNonNullFilters (some "") none none (sampleResult "a" "c" 1 [] 1)) := by
  intro h
  have hmem : sampleResult "a" "c" 1 [] 1 ∈
      get_results [sampleResult "a" "c" 1 [] 1] (some "") none none := by decide
  have h2 := (h.mp hmem).2.1 "" rfl
  simp [sampleResult] at h2

/-- A record passes the `get_results` filters exactly when it matches
every truthy (non-null, non-empty) filter. -/
theorem passesFilters_eq_true_iff (g m t : Option String) (r : BenchmarkResult) :
    passesFilters g m t r = true ↔ matchesTruthyFilters g m t r := by
  cases g <;> cases m <;> cases t <;>
    simp [passesFilters, matchesTruthyFilters, List.elem_iff, or_iff_not_imp_left,
      and_assoc]

/-- C6 amended: a query with no filters returns every stored record, a
record passes the query exactly when it matches every truthy (non-null
and non-empty) filter — the `task_category` filter matching only
records whose `results_by_category` contains the key — and querying by
`gpu_type` and then filtering the result by `model_category` equals
querying with both filters at once. -/
theorem C6_query_filter_semantics :
    (∀ store : List BenchmarkResult, get_results store none none none = store)
    ∧ (∀ (store : List BenchmarkResult) (g m t : Option String) (r : BenchmarkResult),
        r ∈ get_results store g m t ↔ r ∈ store ∧ matchesTruthyFilters g m t r)
    ∧ (∀ (store : List BenchmarkResult) (x y : String),
        get_results (get_results store (some x) none none) none (some y) none
          = get_results store (some x) (some y) none) := by
  refine ⟨?_, ?_, ?_⟩
  · intro store
    simp [get_results, passesFilters]
  · intro store g m t r
    rw [get_results, List.mem_filter, passesFilters_eq_true_iff]
  · intro store x y
    simp only [get_results]
    rw [List.filter_filter]
    refine List.filter_congr fun r _ => ?_
    simp only [passesFilters, Bool.and_true, Bool.true_and]
    cases hx : (x == "" || r.gpu_type == x) <;>
      cases hy : (y == "" || r.model_category == y) <;> simp [hx, hy]

/-- Closed form of `select_models_for_vram` over the VRAM budget. -/
theorem select_models_for_vram_closed_form (v : ℤ) :
    select_models_for_vram v =
      (if 140 ≤ v then [q72awq, dsV2full]
       else if 80 ≤ v then [q72awq, ds33full]
       else if 70 ≤ v then [q72awq]
       else if 35 ≤ v then [q32awq]
       else if 18 ≤ v then [q14awq]
       else []) := by
  rcases le_or_lt 140 v with h140 | h140
  · have p16 : (16:ℤ) ≤ v := by omega
    have p18 : (18:ℤ) ≤ v := by omega
    have p32 : (32:ℤ) ≤ v := by omega
    have p35 : (35:ℤ) ≤ v := by omega
    have p70 : (70:ℤ) ≤ v := by omega
    have p80 : (80:ℤ) ≤ v := by omega
    simp [select_models_for_vram, get_recommended_models, MODEL_CATEGORIES, stableSort,
      insertStable, grmSortKey, boolIntKeyLe, isQuantized, group_models_by_category,
      select_primary_quantized, append_full_precision, categoryOrder,
      q72awq, dsV2full, p16, p18, p32, p35, p70, p80, h140]
    try rfl
  · have n140 : ¬ ((140:ℤ) ≤ v) := by omega
    rcases le_or_lt 80 v with h80 | h80
    · have p16 : (16:ℤ) ≤ v := by omega
      have p18 : (18:ℤ) ≤ v := by omega
      have p32 : (32:ℤ) ≤ v := by omega
      have p35 : (35:ℤ) ≤ v := by omega
      have p70 : (70:ℤ) ≤ v := by omega
      simp [select_models_for_vram, get_recommended_models, MODEL_CATEGORIES, stableSort,
        insertStable, grmSortKey, boolIntKeyLe, isQuantized, group_models_by_category,
        select_primary_quantized, append_full_precision, categoryOrder,
        q72awq, ds33full, p16, p18, p32, p35, p70, h80, n140]
      try rfl
    · have n80 : ¬ ((80:ℤ) ≤ v) := by omega
      rcases le_or_lt 70 v with h70 | h70
      · have p16 : (16:ℤ) ≤ v := by omega
        have p18 : (18:ℤ) ≤ v := by omega
        have p32 : (32:ℤ) ≤ v := by omega
        have p35 : (35:ℤ) ≤ v := by omega
        simp [select_models_for_vram, get_recommended_models, MODEL_CATEGORIES, stableSort,
          insertStable, grmSortKey, boolIntKeyLe, isQuantized, group_models_by_category,
          select_primary_quantized, append_full_precision, categoryOrder,
          q72awq, p16, p18, p32, p35, h70, n80, n140]
        try rfl
      · have n70 : ¬ ((70:ℤ) ≤ v) := by omega
        rcases le_or_lt 35 v with h35 | h35
        · have p16 : (16:ℤ) ≤ v := by omega
          have p18 : (18:ℤ) ≤ v := by omega
          have p32 : (32:ℤ) ≤ v := by omega
          simp [select_models_for_vram, get_recommended_models, MODEL_CATEGORIES, stableSort,
            insertStable, grmSortKey, boolIntKeyLe, isQuantized, group_models_by_category,
            select_primary_quantized, append_full_precision, categoryOrder,
            q32awq, p16, p18, p32, h35, n70, n80, n140]
          try rfl
        · have n35 : ¬ ((35:ℤ) ≤ v) := by omega
          rcases le_or_lt 32 v with h32 | h32
          · have p16 : (16:ℤ) ≤ v := by omega
            have p18 : (18:ℤ) ≤ v := by omega
            simp [select_models_for_vram, get_recommended_models, MODEL_CATEGORIES, stableSort,
              insertStable, grmSortKey, boolIntKeyLe, isQuantized, group_models_by_category,
              select_primary_quantized, append_full_precision, categoryOrder,
              q14awq, p16, p18, h32, n35, n70, n80, n140]
            try rfl
          · have n32 : ¬ ((32:ℤ) ≤ v) := by omega
            rcases le_or_lt 18 v with h18 | h18
            · have p16 : (16:ℤ) ≤ v := by omega
              simp [select_models_for_vram, get_recommended_models, MODEL_CATEGORIES,
                stableSort, insertStable, grmSortKey, boolIntKeyLe, isQuantized,
                group_models_by_category, select_primary_quantized, append_full_precision,
                categoryOrder, q14awq, p16, h18, n32, n35, n70, n80, n140]
              try rfl
            · have n18 : ¬ ((18:ℤ) ≤ v) := by omega
              rcases le_or_lt 16 v with h16 | h16
              · simp [select_models_for_vram, get_recommended_models, MODEL_CATEGORIES,
                  stableSort, insertStable, grmSortKey, boolIntKeyLe, isQuantized,
                  group_models_by_category, select_primary_quantized, append_full_precision,
                  categoryOrder, h16, n18, n32, n35, n70, n80, n140]
                try rfl
              · have n16 : ¬ ((16:ℤ) ≤ v) := by omega
                simp [select_models_for_vram, get_recommended_models, MODEL_CATEGORIES,
                  stableSort, insertStable, grmSortKey, boolIntKeyLe, isQuantized,
                  group_models_by_category, select_primary_quantized, append_full_precision,
                  categoryOrder, n16, n18, n32, n35, n70, n80, n140]
                try rfl

/-- A quantized catalog model that fits the budget is one of the three
AWQ entries, with the corresponding lower bound on the budget. -/
theorem quantized_fit_cases (v : ℤ) (mq : ModelConfig)
    (hmq : mq ∈ allCatalogModels) (hq : isQuantized mq = true)
    (hfit : mq.min_vram_gb ≤ v) :
    (mq = q14awq ∧ 18 ≤ v) ∨ (mq = q32awq ∧ 35 ≤ v) ∨ (mq = q72awq ∧ 70 ≤ v) := by
  simp only [allCatalogModels, MODEL_CATEGORIES, List.flatMap_cons, List.flatMap_nil,
    List.append_nil, List.mem_append, List.mem_cons, List.not_mem_nil, or_false] at hmq
  rcases hmq with (rfl | rfl) | (rfl | rfl) | (rfl | rfl) | (rfl | rfl) <;>
    simp_all [isQuantized, q14awq, q32awq, q72awq]

/-- C9 counterexample: at a 16GB VRAM budget a catalog model fits (the
full-precision 7B models need exactly 16GB), yet `select_models_for_vram`
returns no model at all, because no quantized model fits and the
primary selection considers only quantized candidates. -/
theorem C9_counterexample :
    (∃ m ∈ allCatalogModels, m.min_vram_gb ≤ 16) ∧ select_models_for_vram 16 = [] := by
  decide

/-- C9 amended: whenever at least one quantized catalog model fits the
budget, `select_models_for_vram` returns between 1 and 3 models, the
first being a fitting quantized model of the largest category among the
fitting quantized models; any further model is full precision and is
added only when the budget is at least 80GB. -/
theorem C9_selection_amended (v : ℤ)
    (h : ∃ m ∈ allCatalogModels, isQuantized m = true ∧ m.min_vram_gb ≤ v) :
    (1 ≤ (select_models_for_vram v).length ∧ (select_models_for_vram v).length ≤ 3)
    ∧ (∃ m, (select_models_for_vram v).head? = some m ∧ isQuantized m = true
        ∧ m.min_vram_gb ≤ v
        ∧ ∀ mq ∈ allCatalogModels, isQuantized mq = true → mq.min_vram_gb ≤ v →
            catRank mq.category ≤ catRank m.category)
    ∧ (2 ≤ (select_models_for_vram v).length → 80 ≤ v)
    ∧ (∀ mf ∈ (select_models_for_vram v).tail, mf.quantization = "full") := by
  have h18 : (18:ℤ) ≤ v := by
    obtain ⟨m, hm, hq, hfit⟩ := h
    rcases quantized_fit_cases v m hm hq hfit with ⟨-, h2⟩ | ⟨-, h2⟩ | ⟨-, h2⟩ <;> omega
  have e := select_models_for_vram_closed_form v
  have bound : ∀ m : ModelConfig, (70:ℤ) ≤ v →
      catRank m.category ≤ catRank q72awq.category := by
    intro m _
    simp only [q72awq, catRank]
    split_ifs <;> omega
  rcases le_or_lt 140 v with h140 | h140
  · rw [if_pos h140] at e
    rw [e]
    exact ⟨⟨by simp, by simp⟩,
      ⟨q72awq, rfl, by decide, by simp [q72awq]; omega,
        fun mq _ _ _ => bound mq (by omega)⟩,
      fun _ => by omega, by simp [dsV2full]⟩
  · rw [if_neg (by omega)] at e
    rcases le_or_lt 80 v with h80 | h80
    · rw [if_pos h80] at e
      rw [e]
      exact ⟨⟨by simp, by simp⟩,
        ⟨q72awq, rfl, by decide, by simp [q72awq]; omega,
          fun mq _ _ _ => bound mq (by omega)⟩,
        fun _ => h80, by simp [ds33full]⟩
    · rw [if_neg (by omega)] at e
      rcases le_or_lt 70 v with h70 | h70
      · rw [if_pos h70] at e
        rw [e]
        exact ⟨⟨by simp, by simp⟩,
          ⟨q72awq, rfl, by decide, by simp [q72awq]; omega,
            fun mq _ _ _ => bound mq h70⟩,
          fun h2 => by simp at h2, by simp⟩
      · rw [if_neg (by omega)] at e
        rcases le_or_lt 35 v with h35 | h35
        · rw [if_pos h35] at e
          rw [e]
          refine ⟨⟨by simp, by simp⟩,
            ⟨q32awq, rfl, by decide, by simp [q32awq]; omega, ?_⟩,
            fun h2 => by simp at h2, by simp⟩
          intro mq hmq hq hfit
          rcases quantized_fit_cases v mq hmq hq hfit with ⟨rfl, -⟩ | ⟨rfl, -⟩ | ⟨rfl, h2⟩
          · decide
          · decide
          · omega
        · rw [if_neg (by omega), if_pos h18] at e
          rw [e]
          refine ⟨⟨by simp, by simp⟩,
            ⟨q14awq, rfl, by decide, by simp [q14awq]; omega, ?_⟩,
            fun h2 => by simp at h2, by simp⟩
          intro mq hmq hq hfit
          rcases quantized_fit_cases v mq hmq hq hfit with ⟨rfl, -⟩ | ⟨rfl, h2⟩ | ⟨rfl, h2⟩
          · decide
          · omega
          · omega

/-- Witness for C9 amended at a 96GB budget. -/
theorem C9_selection_amended_witness :
    1 ≤ (select_models_for_vram 96).length ∧ (select_models_for_vram 96).length ≤ 3 :=
  (C9_selection_amended 96 (by decide)).1

end Maider
